import Mathlib

/-!
A shallow embedding of the `BaseComponent` custom-element wrapper of the
todo-vanilla repository (`src/components/shared/baseComponent/baseComponent.js`),
together with the fragment of the host DOM API the wrapper delegates to:
`DOMTokenList` operations (classList), element attributes, and shadow roots.

Modelling choices:
* `document.createElement(tag)` is modelled as total on non-empty tags; the
  host-side lexical validation of tag and attribute names is not modelled.
* `DOMTokenList` is modelled as the WHATWG "ordered set of tokens", with the
  specified validation: an empty token raises a SyntaxError condition and a
  token containing ASCII whitespace raises an InvalidCharacterError condition.
  These are the `DOMException` values below.
* Setting `innerHTML` replaces a container's children with a single opaque
  `markup` node (markup parsing is not modelled); `appendChild` appends a node.
* The component's `_element` is stored once, in the `element` field; its
  position inside the shadow root (or among the host's direct children) is
  recorded by the `Child.hostElement` marker, mirroring the reference
  semantics of `appendChild(this._element)`.
* `console.warn` output is collected in the `log` field of the state.
-/

/-- DOM exception conditions raised by `DOMTokenList` validation: the
empty-string token case (a SyntaxError in the DOM) and the ASCII-whitespace
case (an InvalidCharacterError). -/
inductive DOMException where
  | emptyTokenErr
  | invalidCharacterErr
deriving DecidableEq, Repr

/-- ASCII whitespace, as used by the DOM to tokenize the class attribute. -/
def isAsciiWhitespace (c : Char) : Bool :=
  c = ' ' || c = '\t' || c = '\n' || c = '\x0c' || c = '\r'

/-- A token is valid for `DOMTokenList` operations when it is non-empty and
contains no ASCII whitespace. -/
def isValidToken (t : String) : Bool :=
  (!t.isEmpty) && !(t.toList.any isAsciiWhitespace)

/-- The validation step shared by the `DOMTokenList` mutation operations. -/
def validateTokens (ts : List String) : Except DOMException Unit :=
  if ts.any String.isEmpty then .error .emptyTokenErr
  else if ts.any (fun t => t.toList.any isAsciiWhitespace) then .error .invalidCharacterErr
  else .ok ()

namespace DOMTokenList

/-- `DOMTokenList.contains`: membership in the ordered token set. -/
def contains (l : List String) (t : String) : Bool :=
  decide (t ∈ l)

/-- Append one token to the ordered set if it is not yet present. -/
def appendToken (l : List String) (t : String) : List String :=
  if t ∈ l then l else l ++ [t]

/-- `DOMTokenList.add`: validate every token, then append each in order. -/
def add (l : List String) (ts : List String) : Except DOMException (List String) := do
  validateTokens ts
  pure (ts.foldl appendToken l)

/-- `DOMTokenList.remove`: validate every token, then remove each from the set. -/
def remove (l : List String) (ts : List String) : Except DOMException (List String) := do
  validateTokens ts
  pure (l.filter (fun x => decide (x ∉ ts)))

/-- `DOMTokenList.toggle`: validate, then remove the token when present
(returning false) or append it when absent (returning true). -/
def toggle (l : List String) (t : String) : Except DOMException (List String × Bool) := do
  validateTokens [t]
  if t ∈ l then pure (l.filter (fun x => decide (x ≠ t)), false)
  else pure (l ++ [t], true)

/-- Ordered-set replacement (WHATWG Infra): replace the first instance of
either token with the replacement and drop all other instances of both. -/
def replaceImpl : List String → String → String → List String
  | [], _, _ => []
  | x :: rest, o, n =>
    if x = o ∨ x = n then
      n :: rest.filter (fun y => decide (y ≠ o) && decide (y ≠ n))
    else
      x :: replaceImpl rest o n

/-- `DOMTokenList.replace`: validate both tokens; a no-op returning false when
the old token is absent, otherwise the ordered-set replacement. -/
def replace (l : List String) (o n : String) : Except DOMException (List String × Bool) := do
  validateTokens [o, n]
  if o ∈ l then pure (replaceImpl l o n, true)
  else pure (l, false)

end DOMTokenList

namespace Attrs

/-- `getAttribute`: the value of the first entry with the given name, or none. -/
def getAttr : List (String × String) → String → Option String
  | [], _ => none
  | (k, v) :: rest, name => if k = name then some v else getAttr rest name

/-- `setAttribute`: change the value of an existing entry, or append one. -/
def setAttr : List (String × String) → String → String → List (String × String)
  | [], name, value => [(name, value)]
  | (k, v) :: rest, name, value =>
    if k = name then (name, value) :: rest else (k, v) :: setAttr rest name value

/-- `removeAttribute`: drop every entry with the given name. -/
def removeAttr (l : List (String × String)) (name : String) : List (String × String) :=
  l.filter (fun p => decide (p.1 ≠ name))

/-- `hasAttribute`: whether an entry with the given name exists. -/
def hasAttr (l : List (String × String)) (name : String) : Bool :=
  (getAttr l name).isSome

end Attrs

/-- A child node of a container (an element or a shadow root). The
`hostElement` marker stands for the component's own created element. -/
inductive Child where
  | hostElement
  | styleElem (textContent : String)
  | linkElem (attrs : List (String × String))
  | markup (s : String)
  | extNode (tag : String) (textContent : String)
deriving DecidableEq, Repr

/-- The created DOM element wrapped by the component (`this._element`). -/
structure Element where
  tagName : String
  attrs : List (String × String)
  classList : List String
  children : List Child
deriving DecidableEq, Repr

/-- The `id` IDL attribute: reflects the id content attribute, with the empty
string when the attribute is absent. -/
def Element.id (el : Element) : String :=
  (Attrs.getAttr el.attrs "id").getD ""

/-- A shadow root attached by `attachShadow`. -/
structure ShadowRoot where
  mode : String
  children : List Child
deriving DecidableEq, Repr

/-- The state of one `BaseComponent` instance: the created element, the
optional shadow root, the host's own direct children, and the console
warnings emitted so far. -/
structure BaseComponent where
  element : Element
  shadowRoot : Option ShadowRoot
  hostChildren : List Child
  log : List String
deriving DecidableEq, Repr

/-- The message of the error thrown by the constructor guard clause. -/
def invalidElementMessage : String :=
  "Define a valid HTML element to create"

/-- The `BaseComponent` constructor: fails when the tag argument is absent
(undefined) or the empty string; otherwise creates the element and either
attaches an open shadow root containing it, or appends it directly to the
host. -/
def BaseComponent.create (element : Option String) (useShadowDom : Bool := false) :
    Except String BaseComponent :=
  match element with
  | none => .error invalidElementMessage
  | some tag =>
    if tag = "" then .error invalidElementMessage
    else
      let el : Element := { tagName := tag, attrs := [], classList := [], children := [] }
      if useShadowDom then
        .ok { element := el,
              shadowRoot := some { mode := "open", children := [Child.hostElement] },
              hostChildren := [], log := [] }
      else
        .ok { element := el, shadowRoot := none,
              hostChildren := [Child.hostElement], log := [] }

/-- The warning emitted by `addStyles` without a shadow root. -/
def stylesWarning : String :=
  "Shadow DOM is not enabled. Styles cannot be added."

/-- The warning emitted by `addStyleSheet` without a shadow root. -/
def styleSheetWarning : String :=
  "Shadow DOM is not enabled. Stylesheets cannot be added."

/-- `addStyles`: with a shadow root, append a style element whose text content
is the given CSS; otherwise warn and change nothing. -/
def BaseComponent.addStyles (self : BaseComponent) (styles : String) : BaseComponent :=
  match self.shadowRoot with
  | some sr =>
    { self with shadowRoot := some { sr with children := sr.children ++ [Child.styleElem styles] } }
  | none => { self with log := self.log ++ [stylesWarning] }

/-- `setInnerHTML`: replace the content of the shadow root when present,
otherwise the content of the created element. -/
def BaseComponent.setInnerHTML (self : BaseComponent) (innerHTML : String) : BaseComponent :=
  match self.shadowRoot with
  | some sr => { self with shadowRoot := some { sr with children := [Child.markup innerHTML] } }
  | none => { self with element.children := [Child.markup innerHTML] }

/-- `setAppendChild`: append the node to the created element. -/
def BaseComponent.setAppendChild (self : BaseComponent) (nodeElement : Child) : BaseComponent :=
  { self with element.children := self.element.children ++ [nodeElement] }

/-- `addStyleSheet`: with a shadow root, append a link element with
rel stylesheet and the given href; otherwise warn and change nothing. -/
def BaseComponent.addStyleSheet (self : BaseComponent) (href : String) : BaseComponent :=
  match self.shadowRoot with
  | some sr =>
    let link : Child := Child.linkElem [("rel", "stylesheet"), ("href", href)]
    { self with shadowRoot := some { sr with children := sr.children ++ [link] } }
  | none => { self with log := self.log ++ [styleSheetWarning] }

/-- `render`: return the created element. -/
def BaseComponent.render (self : BaseComponent) : Element :=
  self.element

/-- The argument of `addClass`: a single class name or an array of names
(the two cases the method dispatches on). -/
inductive ClassArg where
  | str (s : String)
  | arr (l : List String)
deriving DecidableEq, Repr

/-- The tokens an `addClass` argument passes to `classList.add`. -/
def ClassArg.tokens : ClassArg → List String
  | .str s => [s]
  | .arr l => l

/-- `addClass` on the element: `classList.add` with one token or with the
array spread out. -/
def Element.addClassE (el : Element) (className : ClassArg) : Except DOMException Element :=
  (DOMTokenList.add el.classList className.tokens).map fun cl => { el with classList := cl }

/-- `addClass`: adds one or more class names to the element. -/
def BaseComponent.addClass (self : BaseComponent) (className : ClassArg) :
    Except DOMException BaseComponent :=
  (self.element.addClassE className).map fun el => { self with element := el }

/-- `clearClasses`: `className = ''`; the empty string tokenizes to the empty
token list. -/
def BaseComponent.clearClasses (self : BaseComponent) : BaseComponent :=
  { self with element.classList := [] }

/-- `hasClass`: `classList.contains`. -/
def BaseComponent.hasClass (self : BaseComponent) (className : String) : Bool :=
  DOMTokenList.contains self.element.classList className

/-- `getClasses`: the element's class list. -/
def BaseComponent.getClasses (self : BaseComponent) : List String :=
  self.element.classList

/-- `removeClass` on the element: `classList.remove` with one token. -/
def Element.removeClassE (el : Element) (className : String) : Except DOMException Element :=
  (DOMTokenList.remove el.classList [className]).map fun cl => { el with classList := cl }

/-- `removeClass`: removes a class name from the element. -/
def BaseComponent.removeClass (self : BaseComponent) (className : String) :
    Except DOMException BaseComponent :=
  (self.element.removeClassE className).map fun el => { self with element := el }

/-- `replaceClass` on the element: `classList.replace`. -/
def Element.replaceClassE (el : Element) (oldClassName newClassName : String) :
    Except DOMException Element :=
  (DOMTokenList.replace el.classList oldClassName newClassName).map fun r =>
    { el with classList := r.1 }

/-- `replaceClass`: replaces one class name with another. -/
def BaseComponent.replaceClass (self : BaseComponent) (oldClassName newClassName : String) :
    Except DOMException BaseComponent :=
  (self.element.replaceClassE oldClassName newClassName).map fun el => { self with element := el }

/-- `toggleClass` on the element: `classList.toggle`. -/
def Element.toggleClassE (el : Element) (className : String) : Except DOMException Element :=
  (DOMTokenList.toggle el.classList className).map fun r => { el with classList := r.1 }

/-- `toggleClass`: toggles a class name on the element. -/
def BaseComponent.toggleClass (self : BaseComponent) (className : String) :
    Except DOMException BaseComponent :=
  (self.element.toggleClassE className).map fun el => { self with element := el }

/-- `setId`: the id IDL attribute setter reflects to the id content attribute. -/
def BaseComponent.setId (self : BaseComponent) (id : String) : BaseComponent :=
  { self with element.attrs := Attrs.setAttr self.element.attrs "id" id }

/-- `removeId`: `removeAttribute('id')` on the element. -/
def BaseComponent.removeId (self : BaseComponent) : BaseComponent :=
  { self with element.attrs := Attrs.removeAttr self.element.attrs "id" }

/-- `hasAttribute` delegated to the element. -/
def BaseComponent.hasAttribute (self : BaseComponent) (attrName : String) : Bool :=
  Attrs.hasAttr self.element.attrs attrName

/-- `getAttributeValue`: `getAttribute` on the element; none is the absent
marker (null). -/
def BaseComponent.getAttributeValue (self : BaseComponent) (attrName : String) : Option String :=
  Attrs.getAttr self.element.attrs attrName

/-- `setAttribute` delegated to the element. -/
def BaseComponent.setAttribute (self : BaseComponent) (attrName attrValue : String) :
    BaseComponent :=
  { self with element.attrs := Attrs.setAttr self.element.attrs attrName attrValue }

/-- `removeAttribute` delegated to the element. -/
def BaseComponent.removeAttribute (self : BaseComponent) (attrName : String) : BaseComponent :=
  { self with element.attrs := Attrs.removeAttr self.element.attrs attrName }

/-- Append one child node to a shadow root. -/
def ShadowRoot.appendNode (sr : ShadowRoot) (n : Child) : ShadowRoot :=
  { sr with children := sr.children ++ [n] }

/-- The link element that `addStyleSheet` creates for a given href. -/
def linkStylesheet (href : String) : Child :=
  Child.linkElem [("rel", "stylesheet"), ("href", href)]

/-- The class, id, and attribute operations quantified over in claim C10. -/
inductive ElOp where
  | opAddClass (a : ClassArg)
  | opRemoveClass (s : String)
  | opReplaceClass (o n : String)
  | opToggleClass (s : String)
  | opClearClasses
  | opSetId (s : String)
  | opRemoveId
  | opSetAttribute (k v : String)
  | opRemoveAttribute (k : String)
deriving DecidableEq, Repr

/-- Apply one operation through the corresponding `BaseComponent` method; the
methods that delegate to `DOMTokenList` validation may fail. -/
def applyOp (c : BaseComponent) : ElOp → Except DOMException BaseComponent
  | .opAddClass a => c.addClass a
  | .opRemoveClass s => c.removeClass s
  | .opReplaceClass o n => c.replaceClass o n
  | .opToggleClass s => c.toggleClass s
  | .opClearClasses => .ok c.clearClasses
  | .opSetId s => .ok (c.setId s)
  | .opRemoveId => .ok c.removeId
  | .opSetAttribute k v => .ok (c.setAttribute k v)
  | .opRemoveAttribute k => .ok (c.removeAttribute k)

/-- Run a sequence of operations, stopping at the first failure, as a caller
of the wrapper would when an exception propagates. -/
def runOps : BaseComponent → List ElOp → Except DOMException BaseComponent
  | c, [] => .ok c
  | c, op :: rest =>
    match applyOp c op with
    | .ok c2 => runOps c2 rest
    | .error e => .error e

/-- A concrete non-isolated div wrapper, used to instantiate the universally
quantified theorems at a specific state. -/
def sampleDiv : BaseComponent :=
  { element := { tagName := "div", attrs := [], classList := [], children := [] },
    shadowRoot := none, hostChildren := [Child.hostElement], log := [] }

/-- A concrete isolated (shadow-DOM) div wrapper. -/
def sampleShadowDiv : BaseComponent :=
  { element := { tagName := "div", attrs := [], classList := [], children := [] },
    shadowRoot := some { mode := "open", children := [Child.hostElement] },
    hostChildren := [], log := [] }

/-! ### Attribute lemmas -/

lemma Attrs.getAttr_setAttr_self (l : List (String × String)) (k v : String) :
    Attrs.getAttr (Attrs.setAttr l k v) k = some v := by
  induction l with
  | nil => simp [Attrs.setAttr, Attrs.getAttr]
  | cons p rest ih =>
    obtain ⟨a, b⟩ := p
    by_cases h : a = k
    · simp [Attrs.setAttr, Attrs.getAttr, h]
    · simp [Attrs.setAttr, Attrs.getAttr, h, ih]

lemma Attrs.getAttr_removeAttr_self (l : List (String × String)) (k : String) :
    Attrs.getAttr (Attrs.removeAttr l k) k = none := by
  induction l with
  | nil => rfl
  | cons p rest ih =>
    obtain ⟨a, b⟩ := p
    by_cases h : a = k
    · simpa [Attrs.removeAttr, List.filter_cons, h] using ih
    · simpa [Attrs.removeAttr, Attrs.getAttr, List.filter_cons, h] using ih

/-- C7: setAttribute(k,v) followed by getAttributeValue(k) returns v and
hasAttribute(k) is true; removeAttribute(k) followed by hasAttribute(k) is
false; and getAttributeValue on an attribute that is not set returns the
absent marker (none). -/
theorem setAttribute_getAttribute_roundtrip (c : BaseComponent) (k v : String) :
    (c.setAttribute k v).getAttributeValue k = some v
  ∧ (c.setAttribute k v).hasAttribute k = true
  ∧ (c.removeAttribute k).hasAttribute k = false
  ∧ (c.hasAttribute k = false → c.getAttributeValue k = none) := by
  refine ⟨?_, ?_, ?_, ?_⟩
  · simp [BaseComponent.setAttribute, BaseComponent.getAttributeValue,
      Attrs.getAttr_setAttr_self]
  · simp [BaseComponent.setAttribute, BaseComponent.hasAttribute, Attrs.hasAttr,
      Attrs.getAttr_setAttr_self]
  · simp [BaseComponent.removeAttribute, BaseComponent.hasAttribute, Attrs.hasAttr,
      Attrs.getAttr_removeAttr_self]
  · intro h
    unfold BaseComponent.hasAttribute Attrs.hasAttr at h
    unfold BaseComponent.getAttributeValue
    cases ho : Attrs.getAttr c.element.attrs k with
    | none => rfl
    | some w => rw [ho] at h; simp at h

/-- Witness for C7 at a concrete component and attribute. -/
theorem setAttribute_getAttribute_roundtrip_witness :
    (sampleDiv.setAttribute "data-attr" "value").getAttributeValue "data-attr" = some "value"
  ∧ sampleDiv.hasAttribute "data-attr" = false
  ∧ sampleDiv.getAttributeValue "data-attr" = none := by
  have h := setAttribute_getAttribute_roundtrip sampleDiv "data-attr" "value"
  exact ⟨h.1, by decide, h.2.2.2 (by decide)⟩

/-- C9: setId(x) followed by render().id equals x, and removeId() followed by
render().id equals the empty string. -/
theorem setId_removeId_render_id (c : BaseComponent) (x : String) :
    ((c.setId x).render).id = x ∧ (c.removeId.render).id = "" := by
  constructor
  · simp [BaseComponent.setId, BaseComponent.render, Element.id, Attrs.getAttr_setAttr_self]
  · simp [BaseComponent.removeId, BaseComponent.render, Element.id, Attrs.getAttr_removeAttr_self]

/-! ### Token-list lemmas -/

lemma validateTokens_ok_of_valid (ts : List String) (h : ts.all isValidToken = true) :
    validateTokens ts = .ok () := by
  have hall : ∀ t ∈ ts, isValidToken t = true := List.all_eq_true.mp h
  have h1 : ts.any String.isEmpty = false := by
    cases hv : ts.any String.isEmpty
    · rfl
    · obtain ⟨t, ht, hte⟩ := List.any_eq_true.mp hv
      have hval := hall t ht
      have hte2 : t.isEmpty = true := hte
      simp [isValidToken, hte2] at hval
  have h2 : ts.any (fun t => t.toList.any isAsciiWhitespace) = false := by
    cases hv : ts.any (fun t => t.toList.any isAsciiWhitespace)
    · rfl
    · obtain ⟨t, ht, hte⟩ := List.any_eq_true.mp hv
      have hval := hall t ht
      have hte2 : t.toList.any isAsciiWhitespace = true := hte
      simp [isValidToken] at hval
      rw [List.any_eq_true] at hte2
      obtain ⟨x, hx, hxw⟩ := hte2
      rw [hval.2 x hx] at hxw
      simp at hxw
  unfold validateTokens
  rw [h1, h2]
  simp

lemma DOMTokenList.add_ok_of_valid (l ts : List String) (h : ts.all isValidToken = true) :
    DOMTokenList.add l ts = .ok (ts.foldl DOMTokenList.appendToken l) := by
  unfold DOMTokenList.add
  rw [validateTokens_ok_of_valid ts h]
  rfl

lemma DOMTokenList.mem_appendToken_self (l : List String) (t : String) :
    t ∈ DOMTokenList.appendToken l t := by
  unfold DOMTokenList.appendToken
  split
  · assumption
  · exact List.mem_append_right _ (List.mem_singleton_self t)

lemma DOMTokenList.mem_appendToken_of_mem (l : List String) (a t : String) (h : t ∈ l) :
    t ∈ DOMTokenList.appendToken l a := by
  unfold DOMTokenList.appendToken
  split
  · exact h
  · exact List.mem_append_left _ h

lemma DOMTokenList.mem_foldl_appendToken_of_mem (ts l : List String) (t : String) (h : t ∈ l) :
    t ∈ ts.foldl DOMTokenList.appendToken l := by
  induction ts generalizing l with
  | nil => exact h
  | cons a ts ih => exact ih _ (DOMTokenList.mem_appendToken_of_mem l a t h)

lemma DOMTokenList.mem_foldl_appendToken_of_mem_tokens (ts : List String) (t : String)
    (h : t ∈ ts) : ∀ l, t ∈ ts.foldl DOMTokenList.appendToken l := by
  induction ts with
  | nil => cases h
  | cons a ts ih =>
    intro l
    rcases List.mem_cons.mp h with h1 | h2
    · subst h1
      exact DOMTokenList.mem_foldl_appendToken_of_mem ts _ t
        (DOMTokenList.mem_appendToken_self l t)
    · exact ih h2 _

lemma not_mem_filter_ne_self (l : List String) (t : String) :
    t ∉ l.filter (fun x => decide (x ≠ t)) := by
  intro hmem
  have := List.of_mem_filter hmem
  simp at this

/-- C6: addClass with a single class-name string or an array of class-name
strings, followed by hasClass, returns true for every class in the input. -/
theorem addClass_hasClass (c : BaseComponent) (arg : ClassArg)
    (h : arg.tokens.all isValidToken = true) :
    ∃ c2, c.addClass arg = .ok c2 ∧ ∀ t ∈ arg.tokens, c2.hasClass t = true := by
  refine ⟨{ c with element.classList :=
      arg.tokens.foldl DOMTokenList.appendToken c.element.classList }, ?_, ?_⟩
  · unfold BaseComponent.addClass Element.addClassE
    rw [DOMTokenList.add_ok_of_valid _ _ h]
    rfl
  · intro t ht
    simp only [BaseComponent.hasClass, DOMTokenList.contains, decide_eq_true_eq]
    exact DOMTokenList.mem_foldl_appendToken_of_mem_tokens _ _ ht _

/-- Witness for C6: adding two classes as an array to a concrete component. -/
theorem addClass_hasClass_witness :
    (ClassArg.arr ["test-class-1", "test-class-2"]).tokens.all isValidToken = true
  ∧ ∃ c2, sampleDiv.addClass (ClassArg.arr ["test-class-1", "test-class-2"]) = .ok c2
      ∧ ∀ t ∈ (ClassArg.arr ["test-class-1", "test-class-2"]).tokens, c2.hasClass t = true :=
  ⟨by decide, addClass_hasClass sampleDiv _ (by decide)⟩

lemma DOMTokenList.toggle_ok_of_valid (l : List String) (t : String)
    (h : isValidToken t = true) :
    DOMTokenList.toggle l t =
      .ok (if t ∈ l then (l.filter (fun x => decide (x ≠ t)), false) else (l ++ [t], true)) := by
  unfold DOMTokenList.toggle
  rw [validateTokens_ok_of_valid [t] (by simp [h])]
  by_cases hm : t ∈ l
  · simp [hm]
  · simp [hm]

/-- C8: applying toggleClass twice returns the membership of the class, as
observed by hasClass, to its original state. -/
theorem toggleClass_twice_restores (c : BaseComponent) (t : String)
    (h : isValidToken t = true) :
    ∃ c1 c2, c.toggleClass t = .ok c1 ∧ c1.toggleClass t = .ok c2
      ∧ c2.hasClass t = c.hasClass t := by
  by_cases hm : t ∈ c.element.classList
  · refine ⟨{ c with element.classList :=
        c.element.classList.filter (fun x => decide (x ≠ t)) },
      { c with element.classList :=
        c.element.classList.filter (fun x => decide (x ≠ t)) ++ [t] }, ?_, ?_, ?_⟩
    · unfold BaseComponent.toggleClass Element.toggleClassE
      rw [DOMTokenList.toggle_ok_of_valid _ _ h]
      simp [hm, Except.map]
    · unfold BaseComponent.toggleClass Element.toggleClassE
      rw [DOMTokenList.toggle_ok_of_valid _ _ h]
      simp [not_mem_filter_ne_self, Except.map]
    · simp [BaseComponent.hasClass, DOMTokenList.contains, hm]
  · refine ⟨{ c with element.classList := c.element.classList ++ [t] },
      { c with element.classList :=
        (c.element.classList ++ [t]).filter (fun x => decide (x ≠ t)) }, ?_, ?_, ?_⟩
    · unfold BaseComponent.toggleClass Element.toggleClassE
      rw [DOMTokenList.toggle_ok_of_valid _ _ h]
      simp [hm, Except.map]
    · unfold BaseComponent.toggleClass Element.toggleClassE
      rw [DOMTokenList.toggle_ok_of_valid _ _ h]
      simp [List.mem_append, Except.map]
    · simp [BaseComponent.hasClass, DOMTokenList.contains, hm, not_mem_filter_ne_self]

/-- Witness for C8: toggling a class twice on a concrete component. -/
theorem toggleClass_twice_restores_witness :
    isValidToken "toggle-class" = true
  ∧ ∃ c1 c2, sampleDiv.toggleClass "toggle-class" = .ok c1
      ∧ c1.toggleClass "toggle-class" = .ok c2
      ∧ c2.hasClass "toggle-class" = sampleDiv.hasClass "toggle-class" :=
  ⟨by decide, toggleClass_twice_restores sampleDiv "toggle-class" (by decide)⟩

/-- C3: constructing with an empty or undefined tag identifier fails
synchronously with the construction error, for both isolation modes; the
error result carries no component, so no underlying element is created. -/
theorem create_empty_fails (element : Option String) (useShadowDom : Bool)
    (h : element = none ∨ element = some "") :
    BaseComponent.create element useShadowDom = .error invalidElementMessage := by
  rcases h with h | h <;> subst h <;> simp [BaseComponent.create]

/-- Witness for C3 at both failing inputs. -/
theorem create_empty_fails_witness :
    BaseComponent.create (some "") true = .error invalidElementMessage
  ∧ BaseComponent.create none false = .error invalidElementMessage :=
  ⟨create_empty_fails (some "") true (Or.inr rfl),
   create_empty_fails none false (Or.inl rfl)⟩

/-- C4: constructing with a non-empty tag succeeds with an element whose tag
matches; with isolation an open shadow root holding the element is attached
and the host keeps no direct child, otherwise the element is appended
directly to the host and no shadow root exists. -/
theorem create_nonempty_succeeds (tag : String) (useShadowDom : Bool) (h : tag ≠ "") :
    ∃ c, BaseComponent.create (some tag) useShadowDom = .ok c
      ∧ c.render.tagName = tag
      ∧ (useShadowDom = true →
          c.shadowRoot = some { mode := "open", children := [Child.hostElement] }
          ∧ c.hostChildren = [])
      ∧ (useShadowDom = false →
          c.shadowRoot = none ∧ c.hostChildren = [Child.hostElement]) := by
  cases useShadowDom with
  | false =>
    refine ⟨{ element := { tagName := tag, attrs := [], classList := [], children := [] },
              shadowRoot := none, hostChildren := [Child.hostElement], log := [] },
            ?_, rfl, ?_, ?_⟩
    · simp [BaseComponent.create, h]
    · intro hx; simp at hx
    · intro _; exact ⟨rfl, rfl⟩
  | true =>
    refine ⟨{ element := { tagName := tag, attrs := [], classList := [], children := [] },
              shadowRoot := some { mode := "open", children := [Child.hostElement] },
              hostChildren := [], log := [] },
            ?_, rfl, ?_, ?_⟩
    · simp [BaseComponent.create, h]
    · intro _; exact ⟨rfl, rfl⟩
    · intro hx; simp at hx

/-- Witness for C4 at the tag div in shadow mode. -/
theorem create_nonempty_succeeds_witness :
    ("div" : String) ≠ ""
  ∧ ∃ c, BaseComponent.create (some "div") true = .ok c
      ∧ c.render.tagName = "div"
      ∧ (true = true →
          c.shadowRoot = some { mode := "open", children := [Child.hostElement] }
          ∧ c.hostChildren = [])
      ∧ (true = false → c.shadowRoot = none ∧ c.hostChildren = [Child.hostElement]) :=
  ⟨by decide, create_nonempty_succeeds "div" true (by decide)⟩

/-- C5: addStyles and addStyleSheet on a non-isolated wrapper change nothing
in the DOM state and append exactly one fixed warning each to the console
log; on an isolated wrapper they append to the shadow root a style node
whose text content equals the given CSS, respectively a link node with rel
stylesheet and the given href. -/
theorem addStyles_addStyleSheet_behaviour (c : BaseComponent) (css href : String) :
    (c.shadowRoot = none →
        c.addStyles css = { c with log := c.log ++ [stylesWarning] }
      ∧ c.addStyleSheet href = { c with log := c.log ++ [styleSheetWarning] })
  ∧ (∀ sr, c.shadowRoot = some sr →
        c.addStyles css = { c with shadowRoot := some (sr.appendNode (Child.styleElem css)) }
      ∧ c.addStyleSheet href
          = { c with shadowRoot := some (sr.appendNode (linkStylesheet href)) }) := by
  constructor
  · intro h
    constructor <;>
      simp [BaseComponent.addStyles, BaseComponent.addStyleSheet, h]
  · intro sr h
    constructor <;>
      simp [BaseComponent.addStyles, BaseComponent.addStyleSheet, ShadowRoot.appendNode,
        linkStylesheet, h]

/-- Witness for C5: a warning-only no-op on the plain wrapper and a link
insertion on the shadow wrapper. -/
theorem addStyles_addStyleSheet_behaviour_witness :
    sampleDiv.addStyles "color: blue;" = { sampleDiv with log := sampleDiv.log ++ [stylesWarning] }
  ∧ (sampleShadowDiv.addStyleSheet "path/to/styles.css").shadowRoot
      = some { mode := "open",
               children := [Child.hostElement, linkStylesheet "path/to/styles.css"] } := by
  refine ⟨((addStyles_addStyleSheet_behaviour sampleDiv "color: blue;" "path/to/styles.css").1
      rfl).1, ?_⟩
  rw [((addStyles_addStyleSheet_behaviour sampleShadowDiv "color: blue;" "path/to/styles.css").2
      { mode := "open", children := [Child.hostElement] } rfl).2]
  rfl

/-- C1 counterexample: on a wrapper constructed with shadow-DOM mode,
setAppendChild leaves the shadow root unchanged and mutates the underlying
element itself, contradicting the claim that every listed mutation applies to
the shadow root rather than the element. -/
theorem shadow_mutations_counterexample :
    BaseComponent.create (some "div") true = .ok sampleShadowDiv
  ∧ (sampleShadowDiv.setAppendChild (Child.extNode "span" "New content")).shadowRoot
      = sampleShadowDiv.shadowRoot
  ∧ (sampleShadowDiv.setAppendChild (Child.extNode "span" "New content")).element
      ≠ sampleShadowDiv.element := by
  refine ⟨rfl, rfl, ?_⟩
  decide

/-- C1 amended: on a wrapper with shadow-DOM mode, the style, stylesheet and
innerHTML mutations (addStyles, addStyleSheet, setInnerHTML) apply to the
shadow root and leave the underlying element unchanged, while setAppendChild
appends to the underlying element and leaves the shadow root unchanged. -/
theorem shadow_mutations_target (c : BaseComponent) (sr : ShadowRoot)
    (h : c.shadowRoot = some sr) (css href html : String) (n : Child) :
    (c.addStyles css).shadowRoot = some (sr.appendNode (Child.styleElem css))
  ∧ (c.addStyles css).element = c.element
  ∧ (c.addStyleSheet href).shadowRoot = some (sr.appendNode (linkStylesheet href))
  ∧ (c.addStyleSheet href).element = c.element
  ∧ (c.setInnerHTML html).shadowRoot = some { sr with children := [Child.markup html] }
  ∧ (c.setInnerHTML html).element = c.element
  ∧ (c.setAppendChild n).element.children = c.element.children ++ [n]
  ∧ (c.setAppendChild n).shadowRoot = c.shadowRoot := by
  refine ⟨?_, ?_, ?_, ?_, ?_, ?_, ?_, ?_⟩ <;>
    simp [BaseComponent.addStyles, BaseComponent.addStyleSheet, BaseComponent.setInnerHTML,
      BaseComponent.setAppendChild, ShadowRoot.appendNode, linkStylesheet, h]

/-- Witness for C1 amended on the concrete shadow wrapper. -/
theorem shadow_mutations_target_witness :
    (sampleShadowDiv.addStyles "color: blue;").shadowRoot
      = some (ShadowRoot.appendNode { mode := "open", children := [Child.hostElement] }
          (Child.styleElem "color: blue;"))
  ∧ (sampleShadowDiv.setAppendChild (Child.extNode "span" "x")).shadowRoot
      = sampleShadowDiv.shadowRoot :=
  ⟨(shadow_mutations_target sampleShadowDiv { mode := "open", children := [Child.hostElement] }
      rfl "color: blue;" "a.css" "<p>x</p>" (Child.extNode "span" "x")).1,
   (shadow_mutations_target sampleShadowDiv { mode := "open", children := [Child.hostElement] }
      rfl "color: blue;" "a.css" "<p>x</p>" (Child.extNode "span" "x")).2.2.2.2.2.2.2⟩

/-- C2 counterexample: on a wrapper constructed without shadow-DOM mode,
setInnerHTML changes the underlying element's content and emits no warning,
contradicting the claim that it is a warning-emitting no-op. -/
theorem noShadow_noop_counterexample :
    BaseComponent.create (some "div") false = .ok sampleDiv
  ∧ (sampleDiv.setInnerHTML "<p>Hello, world!</p>").element ≠ sampleDiv.element
  ∧ (sampleDiv.setInnerHTML "<p>Hello, world!</p>").log = sampleDiv.log := by
  refine ⟨rfl, ?_, rfl⟩
  decide

/-- C2 amended: on a wrapper without shadow-DOM mode, addStyles and
addStyleSheet leave the whole state unchanged except for exactly one warning
each appended to the console log, while setInnerHTML replaces the underlying
element's own content and emits no warning. -/
theorem noShadow_behaviour (c : BaseComponent) (h : c.shadowRoot = none)
    (css href html : String) :
    c.addStyles css = { c with log := c.log ++ [stylesWarning] }
  ∧ c.addStyleSheet href = { c with log := c.log ++ [styleSheetWarning] }
  ∧ (c.setInnerHTML html).element.children = [Child.markup html]
  ∧ (c.setInnerHTML html).log = c.log := by
  refine ⟨?_, ?_, ?_, ?_⟩ <;>
    simp [BaseComponent.addStyles, BaseComponent.addStyleSheet, BaseComponent.setInnerHTML, h]

/-- Witness for C2 amended on the concrete plain wrapper. -/
theorem noShadow_behaviour_witness :
    sampleDiv.addStyles "color: blue;" = { sampleDiv with log := sampleDiv.log ++ [stylesWarning] }
  ∧ (sampleDiv.setInnerHTML "<p>Hi</p>").element.children = [Child.markup "<p>Hi</p>"] :=
  ⟨(noShadow_behaviour sampleDiv rfl "color: blue;" "a.css" "<p>Hi</p>").1,
   (noShadow_behaviour sampleDiv rfl "color: blue;" "a.css" "<p>Hi</p>").2.2.1⟩

/-! ### The shadow flag does not influence class, id, or attribute behaviour -/

lemma map_element_update (c1 c2 : BaseComponent) (r : Except DOMException Element) :
    (r.map fun el => { c1 with element := el }).map BaseComponent.element
      = (r.map fun el => { c2 with element := el }).map BaseComponent.element := by
  cases r <;> simp [Except.map]

lemma applyOp_element_congr (op : ElOp) (c1 c2 : BaseComponent)
    (h : c1.element = c2.element) :
    (applyOp c1 op).map BaseComponent.element = (applyOp c2 op).map BaseComponent.element := by
  cases op with
  | opAddClass a =>
    simp only [applyOp, BaseComponent.addClass]
    rw [h]
    exact map_element_update c1 c2 _
  | opRemoveClass s =>
    simp only [applyOp, BaseComponent.removeClass]
    rw [h]
    exact map_element_update c1 c2 _
  | opReplaceClass o n =>
    simp only [applyOp, BaseComponent.replaceClass]
    rw [h]
    exact map_element_update c1 c2 _
  | opToggleClass s =>
    simp only [applyOp, BaseComponent.toggleClass]
    rw [h]
    exact map_element_update c1 c2 _
  | opClearClasses =>
    simp [applyOp, BaseComponent.clearClasses, Except.map, h]
  | opSetId s =>
    simp [applyOp, BaseComponent.setId, Except.map, h]
  | opRemoveId =>
    simp [applyOp, BaseComponent.removeId, Except.map, h]
  | opSetAttribute k v =>
    simp [applyOp, BaseComponent.setAttribute, Except.map, h]
  | opRemoveAttribute k =>
    simp [applyOp, BaseComponent.removeAttribute, Except.map, h]

lemma runOps_element_congr (ops : List ElOp) :
    ∀ c1 c2 : BaseComponent, c1.element = c2.element →
      (runOps c1 ops).map BaseComponent.element = (runOps c2 ops).map BaseComponent.element := by
  induction ops with
  | nil =>
    intro c1 c2 h
    simpa [runOps, Except.map] using h
  | cons op rest ih =>
    intro c1 c2 h
    have hco := applyOp_element_congr op c1 c2 h
    cases h1 : applyOp c1 op with
    | error e =>
      cases h2 : applyOp c2 op with
      | error e2 =>
        rw [h1, h2] at hco
        simp [Except.map] at hco
        simp [runOps, h1, h2, hco]
      | ok d =>
        rw [h1, h2] at hco
        simp [Except.map] at hco
    | ok d1 =>
      cases h2 : applyOp c2 op with
      | error e =>
        rw [h1, h2] at hco
        simp [Except.map] at hco
      | ok d2 =>
        rw [h1, h2] at hco
        simp [Except.map] at hco
        simp only [runOps, h1, h2]
        exact ih d1 d2 hco

/-- C10: for every valid tag identifier and every sequence of class, id, and
attribute operations, the observable results on the underlying element are
identical whether the wrapper was constructed with isolation enabled or
disabled; either both runs fail identically or both succeed with the same
hasClass, getClasses, render().id, hasAttribute and getAttributeValue
observations. -/
theorem shadow_flag_irrelevant_for_element_ops (tag : String) (h : tag ≠ "")
    (ops : List ElOp) :
    ∃ cs cp, BaseComponent.create (some tag) true = .ok cs
      ∧ BaseComponent.create (some tag) false = .ok cp
      ∧ (runOps cs ops).map BaseComponent.element = (runOps cp ops).map BaseComponent.element
      ∧ ∀ ds dp, runOps cs ops = .ok ds → runOps cp ops = .ok dp →
          (∀ s, ds.hasClass s = dp.hasClass s)
          ∧ ds.getClasses = dp.getClasses
          ∧ ds.render.id = dp.render.id
          ∧ (∀ k, ds.hasAttribute k = dp.hasAttribute k
              ∧ ds.getAttributeValue k = dp.getAttributeValue k) := by
  refine ⟨{ element := { tagName := tag, attrs := [], classList := [], children := [] },
            shadowRoot := some { mode := "open", children := [Child.hostElement] },
            hostChildren := [], log := [] },
          { element := { tagName := tag, attrs := [], classList := [], children := [] },
            shadowRoot := none, hostChildren := [Child.hostElement], log := [] },
          ?_, ?_, ?_, ?_⟩
  · simp [BaseComponent.create, h]
  · simp [BaseComponent.create, h]
  · exact runOps_element_congr ops _ _ rfl
  · intro ds dp hds hdp
    have key := runOps_element_congr ops
      { element := { tagName := tag, attrs := [], classList := [], children := [] },
        shadowRoot := some { mode := "open", children := [Child.hostElement] },
        hostChildren := [], log := [] }
      { element := { tagName := tag, attrs := [], classList := [], children := [] },
        shadowRoot := none, hostChildren := [Child.hostElement], log := [] } rfl
    rw [hds, hdp] at key
    simp [Except.map] at key
    refine ⟨fun s => ?_, ?_, ?_, fun k => ⟨?_, ?_⟩⟩ <;>
      simp [BaseComponent.hasClass, BaseComponent.getClasses, BaseComponent.render,
        Element.id, BaseComponent.hasAttribute, BaseComponent.getAttributeValue, key]

/-- Witness for C10 at the tag div and a concrete operation sequence. -/
theorem shadow_flag_irrelevant_for_element_ops_witness :
    ("div" : String) ≠ ""
  ∧ ∃ cs cp, BaseComponent.create (some "div") true = .ok cs
      ∧ BaseComponent.create (some "div") false = .ok cp
      ∧ (runOps cs [ElOp.opSetId "task-1", ElOp.opAddClass (ClassArg.arr ["task", "done"]),
            ElOp.opSetAttribute "data-x" "1", ElOp.opToggleClass "task"]).map
            BaseComponent.element
        = (runOps cp [ElOp.opSetId "task-1", ElOp.opAddClass (ClassArg.arr ["task", "done"]),
            ElOp.opSetAttribute "data-x" "1", ElOp.opToggleClass "task"]).map
            BaseComponent.element
      ∧ ∀ ds dp,
          runOps cs [ElOp.opSetId "task-1", ElOp.opAddClass (ClassArg.arr ["task", "done"]),
            ElOp.opSetAttribute "data-x" "1", ElOp.opToggleClass "task"] = .ok ds →
          runOps cp [ElOp.opSetId "task-1", ElOp.opAddClass (ClassArg.arr ["task", "done"]),
            ElOp.opSetAttribute "data-x" "1", ElOp.opToggleClass "task"] = .ok dp →
          (∀ s, ds.hasClass s = dp.hasClass s)
          ∧ ds.getClasses = dp.getClasses
          ∧ ds.render.id = dp.render.id
          ∧ (∀ k, ds.hasAttribute k = dp.hasAttribute k
              ∧ ds.getAttributeValue k = dp.getAttributeValue k) :=
  ⟨by decide, shadow_flag_irrelevant_for_element_ops "div" (by decide)
    [ElOp.opSetId "task-1", ElOp.opAddClass (ClassArg.arr ["task", "done"]),
     ElOp.opSetAttribute "data-x" "1", ElOp.opToggleClass "task"]⟩
